import Mathlib

/-!
Shallow embedding of the metal-detecting photo application's backend
operations (src/src/PhotoHoverPreview.jsx, src/src/lib/utils
(unnamed/part_002), src/scripts/regenerate-thumbnails.js, the storage
migration script (unnamed/part_004), and src/src/MapComponent.jsx).

Asynchronous backend calls (database insert/update/delete/select and
object-storage upload/delete) are modelled by an explicit environment
record that fixes the outcome of each call; every operation returns its
JavaScript result value together with the list of backend operations it
attempted and the error messages it logged.  Canvas / sharp image
re-encoding is not computable here, so the image transformations are
function parameters.  JavaScript numbers are modelled as exact rationals,
strings as Lean strings.
-/

namespace MetalDetecting

/-- JavaScript truthiness of a nullable string (`null`/`undefined` and `""`
are falsy). -/
def jsTruthyStr : Option String → Bool
  | none => false
  | some s => s ≠ ""

/-- JavaScript `o || dflt` for a nullable string (falsy values replaced). -/
def orElseStr (o : Option String) (dflt : String) : String :=
  match o with
  | none => dflt
  | some s => if s = "" then dflt else s

/-- JavaScript `o || null` for a nullable string (empty string becomes null). -/
def orNull (o : Option String) : Option String :=
  match o with
  | none => none
  | some s => if s = "" then none else some s

/-- A signed-in user as seen by the app: `id` plus the
`user_metadata.admin` claim, which may be absent or any boolean. -/
structure User where
  id : String
  admin : Option Bool
deriving Repr, DecidableEq

/-- `checkAdminPermission` from src/src/lib/utils: false for a null user,
otherwise `user_metadata?.admin === true`. -/
def checkAdminPermission : Option User → Bool
  | none => false
  | some u => u.admin == some true

/-- A row of the `photos` table (supabase-schema.sql plus the
`storage_path`/`user_id`/`name`/`description` migrations).  Nullable
columns are `Option`s; `lat`/`lng` are `DECIMAL` columns, modelled as
exact rationals. -/
structure PhotoRow where
  lat : ℚ
  lng : ℚ
  image_data : Option String
  thumbnail_data : Option String
  storage_path : Option String
  timestamp : String
  filename : Option String
  type : Option String
  name : Option String
  description : Option String
  user_id : String
deriving Repr, DecidableEq

/-- The `photoData` argument of `savePhotoToDatabase`. -/
structure PhotoData where
  imageData : String
  filename : Option String
  lat : ℚ
  lng : ℚ
  timestamp : String
  type : Option String
  name : Option String
  description : Option String
deriving Repr, DecidableEq

/-- A single column assignment appearing in a database `update` payload. -/
inductive ColumnWrite
  | type (v : Option String)
  | name (v : Option String)
  | description (v : Option String)
  | thumbnail_data (v : Option String)
  | storage_path (v : Option String)
  | image_data (v : Option String)
deriving Repr, DecidableEq

/-- Semantics of the hosted database applying one column write to a row. -/
def applyWrite (w : ColumnWrite) (r : PhotoRow) : PhotoRow :=
  match w with
  | .type v => { r with type := v }
  | .name v => { r with name := v }
  | .description v => { r with description := v }
  | .thumbnail_data v => { r with thumbnail_data := v }
  | .storage_path v => { r with storage_path := v }
  | .image_data v => { r with image_data := v }

/-- Applying a whole `update` payload to a row. -/
def applyWrites (ws : List ColumnWrite) (r : PhotoRow) : PhotoRow :=
  ws.foldl (fun r w => applyWrite w r) r

/-- A backend call attempted by the application code. -/
inductive BackendOp
  | storageUpload (path : String)
  | storageDelete (path : String)
  | dbInsert (row : PhotoRow)
  | dbSelectStoragePath (photoId : Nat)
  | dbDelete (photoId : Nat)
  | dbUpdate (photoId : Nat) (writes : List ColumnWrite)
deriving Repr, DecidableEq

/-- The `{ success, error?, data? }` object returned by the photo
operations. -/
structure OpResult where
  success : Bool
  error : Option String
  row : Option PhotoRow
deriving Repr, DecidableEq

/-- The error message thrown by `requireAdmin`. -/
def adminErrMsg : String := "Admin permission required for this operation"

/-- `maxSizeInBytes` of `validateImageSize`: 2 MB. -/
def maxSizeInBytes : Nat := 2 * 1024 * 1024

/-- The size check of `validateImageSize`:
`(base64Image.length * 3) / 4 > maxSizeInBytes`, the exact division
multiplied through by 4. -/
def imageSizeExceeded (len : Nat) : Bool := decide (4 * maxSizeInBytes < 3 * len)

/-- Environment fixing the backend outcomes during `savePhotoToDatabase`:
the clock string used in the unique filename, the storage upload result
(error, or the path returned by storage), the database insert outcome
(`none` = success) and the outcome of the rollback delete of the uploaded
original. -/
structure SaveEnv where
  now : String
  uploadResult : Except String String
  insertError : Option String
  cleanupError : Option String
deriving Repr

/-- `savePhotoToDatabase` (src/src/PhotoHoverPreview.jsx): require admin,
validate size, upload the original, compress, thumbnail the compressed
image, insert the row; on insert failure attempt to delete the uploaded
original (failure of that cleanup only logged).  `compressImage` and
`createThumbnail` are the canvas re-encoders, passed as parameters.
Returns the result, the attempted backend ops and the logged errors. -/
def savePhotoToDatabase (compressImage createThumbnail : String → String)
    (pd : PhotoData) (user : Option User) (env : SaveEnv) :
    OpResult × List BackendOp × List String :=
  match user with
  | none =>
      (⟨false, some adminErrMsg, none⟩, [], ["Error saving photo: " ++ adminErrMsg])
  | some u =>
      if checkAdminPermission (some u) = false then
        (⟨false, some adminErrMsg, none⟩, [], ["Error saving photo: " ++ adminErrMsg])
      else if imageSizeExceeded pd.imageData.length then
        (⟨false, some "Image is too large", none⟩, [],
          ["Error saving photo: Image is too large"])
      else
        let uniqueFilename :=
          u.id ++ "/" ++ env.now ++ "_" ++ orElseStr pd.filename "photo.jpg"
        match env.uploadResult with
        | .error e =>
            (⟨false, some e, none⟩, [.storageUpload uniqueFilename],
              ["Error uploading to storage: " ++ e,
               "Error in uploadOriginalImage: " ++ e,
               "Error saving photo: " ++ e])
        | .ok storagePath =>
            let compressedImage := compressImage pd.imageData
            let thumbnail := createThumbnail compressedImage
            let row : PhotoRow :=
              { lat := pd.lat, lng := pd.lng,
                image_data := some compressedImage,
                thumbnail_data := some thumbnail,
                storage_path := some storagePath,
                timestamp := pd.timestamp,
                filename := pd.filename,
                type := orNull pd.type,
                name := orNull pd.name,
                description := orNull pd.description,
                user_id := u.id }
            match env.insertError with
            | some e =>
                (⟨false, some e, none⟩,
                 [.storageUpload uniqueFilename, .dbInsert row,
                  .storageDelete storagePath],
                 ("Error saving photo to database: " ++ e) ::
                   (match env.cleanupError with
                    | some ce =>
                        ["Error deleting from storage: " ++ ce,
                         "Error in deleteOriginalImage: " ++ ce,
                         "Error cleaning up uploaded file: " ++ ce]
                    | none => []))
            | none =>
                (⟨true, none, some row⟩,
                 [.storageUpload uniqueFilename, .dbInsert row], [])

/-- Environment for `deletePhotoFromDatabase`: the result of the
`storage_path` select (`.single()` may error; on success the column is
nullable), the row-delete outcome and the storage-delete outcome. -/
structure DeleteEnv where
  fetchResult : Except String (Option String)
  deleteError : Option String
  storageDeleteError : Option String
deriving Repr

/-- `deletePhotoFromDatabase` (src/src/PhotoHoverPreview.jsx): require
admin; fetch the row's `storage_path` (a fetch error is only logged);
delete the row (an error here fails the operation); then, if a truthy
storage path was fetched, attempt the storage delete, whose failure is
logged as non-critical. -/
def deletePhotoFromDatabase (photoId : Nat) (user : Option User)
    (env : DeleteEnv) : OpResult × List BackendOp × List String :=
  match user with
  | none =>
      (⟨false, some adminErrMsg, none⟩, [], ["Error deleting photo: " ++ adminErrMsg])
  | some u =>
      if checkAdminPermission (some u) = false then
        (⟨false, some adminErrMsg, none⟩, [], ["Error deleting photo: " ++ adminErrMsg])
      else
        let fetchLog :=
          match env.fetchResult with
          | .error e => ["Error fetching photo storage path: " ++ e]
          | .ok _ => []
        match env.deleteError with
        | some e =>
            (⟨false, some e, none⟩,
             [.dbSelectStoragePath photoId, .dbDelete photoId],
             fetchLog ++ ["Error deleting photo from database: " ++ e])
        | none =>
            match env.fetchResult with
            | .ok (some sp) =>
                if sp = "" then
                  (⟨true, none, none⟩,
                   [.dbSelectStoragePath photoId, .dbDelete photoId], fetchLog)
                else
                  match env.storageDeleteError with
                  | some se =>
                      (⟨true, none, none⟩,
                       [.dbSelectStoragePath photoId, .dbDelete photoId,
                        .storageDelete sp],
                       fetchLog ++
                         ["Error deleting from storage: " ++ se,
                          "Error in deleteOriginalImage: " ++ se,
                          "Error deleting from storage (non-critical): " ++ se])
                  | none =>
                      (⟨true, none, none⟩,
                       [.dbSelectStoragePath photoId, .dbDelete photoId,
                        .storageDelete sp], fetchLog)
            | _ =>
                (⟨true, none, none⟩,
                 [.dbSelectStoragePath photoId, .dbDelete photoId], fetchLog)

/-- Environment for the two row-update operations: the update outcome and
the rows echoed back by `.select()`. -/
structure UpdateEnv where
  updateError : Option String
  returned : List PhotoRow
deriving Repr

/-- `updatePhotoType` (src/src/PhotoHoverPreview.jsx): require admin, then
`update({ type: newType })` on the row. -/
def updatePhotoType (photoId : Nat) (newType : Option String)
    (user : Option User) (env : UpdateEnv) :
    OpResult × List BackendOp × List String :=
  match user with
  | none =>
      (⟨false, some adminErrMsg, none⟩, [], ["Error updating photo type: " ++ adminErrMsg])
  | some u =>
      if checkAdminPermission (some u) = false then
        (⟨false, some adminErrMsg, none⟩, [], ["Error updating photo type: " ++ adminErrMsg])
      else
        match env.updateError with
        | some e =>
            (⟨false, some e, none⟩, [.dbUpdate photoId [.type newType]],
             ["Error updating photo type: " ++ e])
        | none =>
            (⟨true, none, env.returned.head?⟩,
             [.dbUpdate photoId [.type newType]], [])

/-- `updatePhotoDetails` (src/src/PhotoHoverPreview.jsx): require admin,
then `update({ name: name || null, description: description || null })`. -/
def updatePhotoDetails (photoId : Nat) (name description : Option String)
    (user : Option User) (env : UpdateEnv) :
    OpResult × List BackendOp × List String :=
  match user with
  | none =>
      (⟨false, some adminErrMsg, none⟩, [],
       ["Error updating photo details: " ++ adminErrMsg])
  | some u =>
      if checkAdminPermission (some u) = false then
        (⟨false, some adminErrMsg, none⟩, [],
         ["Error updating photo details: " ++ adminErrMsg])
      else
        match env.updateError with
        | some e =>
            (⟨false, some e, none⟩,
             [.dbUpdate photoId [.name (orNull name), .description (orNull description)]],
             ["Error updating photo details: " ++ e])
        | none =>
            (⟨true, none, env.returned.head?⟩,
             [.dbUpdate photoId [.name (orNull name), .description (orNull description)]], [])

/-! ## Maintenance script: regenerate-thumbnails.js -/

/-- `MAX_RETRIES` from src/scripts/regenerate-thumbnails.js. -/
def MAX_RETRIES : Nat := 3

/-- Substring containment over character lists, modelling
`String.prototype.includes`. -/
def containsSub (needle hay : List Char) : Bool :=
  hay.tails.any (fun t => needle.isPrefixOf t)

/-- The transient-error test of `retryOperation`:
`error.message.includes("timeout") || error.message.includes("canceling statement")`. -/
def isTimeoutError (msg : String) : Bool :=
  containsSub "timeout".toList msg.toList ||
    containsSub "canceling statement".toList msg.toList

/-- The retry loop of `retryOperation`: `op attempt` is the outcome of the
attempt-th call of the operation (attempts numbered from 1).  A failed
attempt with a timeout message and `attempt < maxRetries` sleeps
`attempt * 2000` ms and retries; any other error is rethrown at once.
Returns the final outcome and the list of backoff delays taken.  The
structural `fuel` starts at `maxRetries` and never runs out while
`1 ≤ attempt` (the `attempt < maxRetries` guard bounds the recursion). -/
def retryLoop (op : Nat → Except String α) (maxRetries : Nat) :
    Nat → Nat → Except String α × List Nat
  | attempt, 0 =>
      (match op attempt with
       | .ok a => .ok a
       | .error e => .error e, [])
  | attempt, fuel + 1 =>
      match op attempt with
      | .ok a => (.ok a, [])
      | .error e =>
          if isTimeoutError e = true ∧ attempt < maxRetries then
            let r := retryLoop op maxRetries (attempt + 1) fuel
            (r.1, attempt * 2000 :: r.2)
          else
            (.error e, [])

/-- `retryOperation` (src/scripts/regenerate-thumbnails.js lines 85-116):
run the operation at attempts 1, 2, ..., `maxRetries`. -/
def retryOperation (op : Nat → Except String α) (maxRetries : Nat) :
    Except String α × List Nat :=
  retryLoop op maxRetries 1 maxRetries

/-- Outcome of a maintenance-script run. -/
inductive RunOutcome (α : Type)
  | completed (a : α)
  | aborted (msg : String)
deriving Repr, DecidableEq

/-- The fatal `try`/`catch` around `regenerateThumbnails` (lines 551-554):
an escaped exception terminates the whole run with `process.exit(1)`. -/
def runWithFatalCatch (r : Except String α) : RunOutcome α :=
  match r with
  | .ok a => .completed a
  | .error e => .aborted e

/-- `updatePhotoWithThumbnail` (src/scripts/regenerate-thumbnails.js): a
single-column update of `thumbnail_data`; an update error is caught and
logged, and the function returns `false` instead of throwing. -/
def updatePhotoWithThumbnail (photoId : Nat) (thumbnailData : String)
    (updateError : Option String) : Bool × List BackendOp :=
  match updateError with
  | some _ => (false, [.dbUpdate photoId [.thumbnail_data (some thumbnailData)]])
  | none => (true, [.dbUpdate photoId [.thumbnail_data (some thumbnailData)]])

/-- A photo record as selected by the thumbnail script
(`id, image_data, thumbnail_data, filename, created_at`). -/
structure ScriptPhoto where
  id : Nat
  image_data : Option String
  thumbnail_data : Option String
  filename : Option String
  created_at : String
deriving Repr, DecidableEq

/-- Per-run environment of `processBatch`: the `--dry-run` flag and the
database outcome of the `thumbnail_data` update for each photo id. -/
structure BatchEnv where
  dryRun : Bool
  updateError : Nat → Option String

/-- Counters accumulated by `processBatch`. -/
structure BatchResults where
  processed : Nat
  successful : Nat
  failed : Nat
  errors : List String
deriving Repr, DecidableEq

/-- One iteration of the `processBatch` loop: in dry-run mode only count;
otherwise recompute the thumbnail from the stored `image_data` column with
sharp (`sharpThumb`, which may throw) and write it back through
`retryOperation` (the update itself never throws, so it is attempted
once). -/
def processSingle (sharpThumb : Option String → Except String String)
    (env : BatchEnv) (photo : ScriptPhoto) : BatchResults × List BackendOp :=
  if env.dryRun then
    (⟨1, 1, 0, []⟩, [])
  else
    match sharpThumb photo.image_data with
    | .error e => (⟨0, 0, 1, ["Photo " ++ toString photo.id ++ ": " ++ e]⟩, [])
    | .ok thumbnail =>
        let upd := updatePhotoWithThumbnail photo.id thumbnail
          (env.updateError photo.id)
        let retried := retryOperation (fun _ => Except.ok upd.1) MAX_RETRIES
        match retried.1 with
        | .ok true => (⟨1, 1, 0, []⟩, upd.2)
        | .ok false =>
            (⟨1, 0, 1, ["Photo " ++ toString photo.id ++ ": Update failed"]⟩, upd.2)
        | .error e =>
            (⟨0, 0, 1, ["Photo " ++ toString photo.id ++ ": " ++ e]⟩, upd.2)

/-- `processBatch` (src/scripts/regenerate-thumbnails.js lines 275-338):
fold `processSingle` over the batch, accumulating counters, errors and
attempted backend operations. -/
def processBatch (sharpThumb : Option String → Except String String)
    (env : BatchEnv) : List ScriptPhoto → BatchResults × List BackendOp
  | [] => (⟨0, 0, 0, []⟩, [])
  | photo :: rest =>
      let head := processSingle sharpThumb env photo
      let tail := processBatch sharpThumb env rest
      (⟨head.1.processed + tail.1.processed,
        head.1.successful + tail.1.successful,
        head.1.failed + tail.1.failed,
        head.1.errors ++ tail.1.errors⟩,
       head.2 ++ tail.2)

/-! ## Maintenance script: migrate-images-to-storage (unnamed/part_004) -/

/-- A photo record as selected by `getPhotosToMigrate`
(`id, image_data, thumbnail_data, timestamp, filename, user_id,
created_at, storage_path`). -/
structure MigPhoto where
  id : Nat
  image_data : Option String
  thumbnail_data : Option String
  timestamp : Option String
  filename : Option String
  user_id : Option String
  created_at : String
  storage_path : Option String
deriving Repr, DecidableEq

/-- The progress record kept in `migration-progress.json`. -/
structure MigProgress where
  processed : Nat
  successful : Nat
  failed : Nat
  lastProcessedId : Nat
  startTime : String
deriving Repr, DecidableEq

/-- `getPhotosToMigrate`: the declarative query
`.is("storage_path", null).not("image_data", "is", null).gt("id", lastProcessedId).order("id", { ascending }).limit(batchSize)`
modelled over the table contents as filter, sort by id, and take. -/
def getPhotosToMigrate (db : List MigPhoto) (batchSize lastProcessedId : Nat) :
    List MigPhoto :=
  (((db.filter fun p =>
        p.storage_path.isNone && p.image_data.isSome &&
          decide (lastProcessedId < p.id)).mergeSort
      fun a b => decide (a.id ≤ b.id)).take batchSize)

/-- Command-line options of the migration script. -/
structure MigOptions where
  dryRun : Bool
  cleanup : Bool
deriving Repr, DecidableEq

/-- Backend outcomes for one `processPhoto` call: the storage upload
result, the `storage_path` row update outcome, and the base64-cleanup
update outcome. -/
structure MigEnv where
  uploadResult : Except String String
  updateError : Option String
  cleanupError : Option String
deriving Repr

/-- Result object of `processPhoto`. -/
structure MigResult where
  success : Bool
  skipped : Bool
  reason : Option String
  storagePath : Option String
  error : Option String
deriving Repr, DecidableEq

/-- `createUniqueFilename` of the migration script;
`new Date(...).toISOString().replace(/[:.]/g, "-")` is the abstract
`isoDate` parameter. -/
def createUniqueFilename (isoDate : String → String) (p : MigPhoto) : String :=
  let ts := orElseStr p.timestamp p.created_at
  let dateStr := isoDate ts
  let filename := orElseStr p.filename "photo.jpg"
  let userId := orElseStr p.user_id "unknown"
  userId ++ "/" ++ dateStr ++ "_" ++ filename

/-- `processPhoto` (unnamed/part_004 lines 326-360): skip photos that
already carry a (truthy) `storage_path` or have no `image_data`; in
dry-run mode skip as well; otherwise upload the inline image to storage,
write the returned path into the row and, with `--cleanup`, null out the
inline payloads.  Any thrown error is caught and returned as
`success:false`. -/
def processPhoto (isoDate : String → String) (opts : MigOptions)
    (env : MigEnv) (photo : MigPhoto) : MigResult × List BackendOp :=
  if jsTruthyStr photo.storage_path then
    (⟨true, true, some "Already migrated", none, none⟩, [])
  else if jsTruthyStr photo.image_data = false then
    (⟨true, true, some "No image data", none, none⟩, [])
  else if opts.dryRun then
    (⟨true, true, some "Dry run mode", none, none⟩, [])
  else
    let filename := createUniqueFilename isoDate photo
    match env.uploadResult with
    | .error e =>
        (⟨false, false, none, none, some ("Storage upload failed: " ++ e)⟩,
         [.storageUpload filename])
    | .ok storagePath =>
        match env.updateError with
        | some e =>
            (⟨false, false, none, none, some ("Database update failed: " ++ e)⟩,
             [.storageUpload filename,
              .dbUpdate photo.id [.storage_path (some storagePath)]])
        | none =>
            if opts.cleanup then
              match env.cleanupError with
              | some e =>
                  (⟨false, false, none, none, some ("Cleanup failed: " ++ e)⟩,
                   [.storageUpload filename,
                    .dbUpdate photo.id [.storage_path (some storagePath)],
                    .dbUpdate photo.id [.image_data none, .thumbnail_data none]])
              | none =>
                  (⟨true, false, none, some storagePath, none⟩,
                   [.storageUpload filename,
                    .dbUpdate photo.id [.storage_path (some storagePath)],
                    .dbUpdate photo.id [.image_data none, .thumbnail_data none]])
            else
              (⟨true, false, none, some storagePath, none⟩,
               [.storageUpload filename,
                .dbUpdate photo.id [.storage_path (some storagePath)]])

/-! ## URL state (src/src/MapComponent.jsx)

String formatting and parsing of JavaScript numbers, modelled over exact
rationals: `toFixed(6)` follows the ECMAScript algorithm (choose the
integer `n` minimising `|n / 10^6 - x|`, ties to the larger `n`, with the
sign split off first), `parseFloat`/`parseInt` parse a maximal numeric
prefix (whitespace skipping and exponent notation, which the written
values never contain, are not modelled). -/

/-- The decimal digit character for `d < 10`. -/
def digitChar (d : Nat) : Char := Char.ofNat (48 + d)

/-- Decimal digit characters of a natural number, most significant
first. -/
def natToChars (n : Nat) : List Char :=
  if _h : n < 10 then [digitChar n]
  else natToChars (n / 10) ++ [digitChar (n % 10)]
termination_by n
decreasing_by exact Nat.div_lt_self (by omega) (by omega)

/-- Exactly `k` decimal digit characters for the value `m % 10^k`, most
significant first (zero padded). -/
def padDigits : Nat → Nat → List Char
  | 0, _ => []
  | k + 1, m => padDigits k (m / 10) ++ [digitChar (m % 10)]

def isDigitChar (c : Char) : Bool := 48 ≤ c.toNat && c.toNat ≤ 57

def charToDigit (c : Char) : Nat := c.toNat - 48

/-- Split a maximal digit prefix off a character list. -/
def takeDigits : List Char → List Char × List Char
  | [] => ([], [])
  | c :: cs =>
      if isDigitChar c then
        let r := takeDigits cs
        (c :: r.1, r.2)
      else ([], c :: cs)

/-- Value of a big-endian digit-character list. -/
def digitsVal (ds : List Char) : Nat :=
  ds.foldl (fun acc c => 10 * acc + charToDigit c) 0

/-- The six-decimal fixed formatting of a nonnegative rational. -/
def toFixed6Pos (q : ℚ) : List Char :=
  let n := (⌊q * 1000000 + 1 / 2⌋).toNat
  natToChars (n / 1000000) ++ '.' :: padDigits 6 (n % 1000000)

/-- `Number.prototype.toFixed(6)` over exact rationals. -/
def toFixed6 (q : ℚ) : String :=
  if q < 0 then ⟨'-' :: toFixed6Pos (-q)⟩ else ⟨toFixed6Pos q⟩

/-- `Number.prototype.toString` of an integer. -/
def intToString (z : Int) : String :=
  if z < 0 then ⟨'-' :: natToChars (-z).toNat⟩ else ⟨natToChars z.toNat⟩

/-- An unsigned decimal prefix: maximal digits, optional `.` and maximal
fraction digits; `none` when no digit was found (NaN). -/
def parseUnsigned (cs : List Char) : Option ℚ :=
  let ir := takeDigits cs
  match ir.2 with
  | '.' :: rest2 =>
      let fr := takeDigits rest2
      if ir.1.isEmpty && fr.1.isEmpty then none
      else some ((digitsVal ir.1 : ℚ) + (digitsVal fr.1 : ℚ) / (10 : ℚ) ^ fr.1.length)
  | _ => if ir.1.isEmpty then none else some (digitsVal ir.1)

/-- `parseFloat`: optional sign then an unsigned decimal prefix; `none`
models NaN. -/
def jsParseFloat (s : String) : Option ℚ :=
  match s.toList with
  | [] => none
  | c :: cs =>
      if c = '-' then (parseUnsigned cs).map (fun q => -q)
      else if c = '+' then parseUnsigned cs
      else parseUnsigned (c :: cs)

/-- `parseInt` in base 10: optional sign then a maximal digit prefix;
`none` models NaN. -/
def jsParseInt (s : String) : Option Int :=
  match s.toList with
  | [] => none
  | c :: cs =>
      if c = '-' then
        let r := takeDigits cs
        if r.1.isEmpty then none else some (-(digitsVal r.1 : Int))
      else if c = '+' then
        let r := takeDigits cs
        if r.1.isEmpty then none else some (digitsVal r.1 : Int)
      else
        let r := takeDigits (c :: cs)
        if r.1.isEmpty then none else some (digitsVal r.1 : Int)

/-- A URL query string as a key/value list. -/
def URLParams := List (String × String)

/-- `URLSearchParams.set`: replace any binding of the key. -/
def setParam (ps : URLParams) (k v : String) : URLParams :=
  (List.filter (fun kv => kv.1 ≠ k) ps) ++ [(k, v)]

/-- `URLSearchParams.get`: the bound value, or `none` for an absent key. -/
def getParam (ps : URLParams) (k : String) : Option String :=
  (List.find? (fun kv => kv.1 = k) ps).map (fun kv => kv.2)

/-- `updateURL` (src/src/MapComponent.jsx lines 211-217): write
`lat.toFixed(6)`, `lng.toFixed(6)` and `zoom.toString()` into the query
string. -/
def updateURL (lat lng : ℚ) (zoom : Int) (ps : URLParams) : URLParams :=
  setParam (setParam (setParam ps "lat" (toFixed6 lat)) "lng" (toFixed6 lng))
    "zoom" (intToString zoom)

/-- The `{ lat, lng, zoom }` object produced by `readURLParams`. -/
structure MapView where
  lat : ℚ
  lng : ℚ
  zoom : Int
deriving Repr, DecidableEq

/-- `readURLParams` (src/src/MapComponent.jsx lines 219-229): parse the
three parameters; `none` (NaN for any of them, including an absent
parameter) yields `null`. -/
def readURLParams (ps : URLParams) : Option MapView :=
  match (getParam ps "lat").bind jsParseFloat,
      (getParam ps "lng").bind jsParseFloat,
      (getParam ps "zoom").bind jsParseInt with
  | some lat, some lng, some zoom => some ⟨lat, lng, zoom⟩
  | _, _, _ => none

/-- Rounding to six decimal places with the sign split off first, the
value denoted by the `toFixed(6)` output. -/
def round6 (q : ℚ) : ℚ :=
  if q < 0 then -((⌊-q * 1000000 + 1 / 2⌋ : ℤ) : ℚ) / 1000000
  else ((⌊q * 1000000 + 1 / 2⌋ : ℤ) : ℚ) / 1000000

/-! ## Concrete sample inputs used by the witnesses -/

/-- A sample photo capture. -/
def pd0 : PhotoData :=
  ⟨"imgdata", some "f.jpg", 1 / 2, 3 / 2, "2024-01-01", some "coins", none, none⟩

/-- A sample admin user. -/
def adminUser : Option User := some ⟨"u1", some true⟩

/-- A sample non-admin user (admin claim absent). -/
def plainUser : Option User := some ⟨"u2", none⟩

/-- An environment in which every backend call succeeds. -/
def envOk : SaveEnv := ⟨"T0", .ok "u1/T0_f.jpg", none, none⟩

/-- An environment in which the row insert fails and the rollback delete
also fails. -/
def envInsFail : SaveEnv := ⟨"T0", .ok "p0", some "insert boom", some "cleanup boom"⟩

/-! ## Claims -/

/-- C9: for a caller whose user object is null or whose
`user_metadata.admin` is not exactly `true`, each mutating operation
(`savePhotoToDatabase`, `updatePhotoType`, `updatePhotoDetails`,
`deletePhotoFromDatabase`) returns `success:false` and attempts no
database or storage operation, because `requireAdmin` throws first. -/
theorem C9_requireAdmin_blocks (user : Option User)
    (h : user = none ∨ ∃ u, user = some u ∧ u.admin ≠ some true) :
    (∀ compress thumb pd env,
        (savePhotoToDatabase compress thumb pd user env).1.success = false ∧
        (savePhotoToDatabase compress thumb pd user env).2.1 = []) ∧
    (∀ pid t env,
        (updatePhotoType pid t user env).1.success = false ∧
        (updatePhotoType pid t user env).2.1 = []) ∧
    (∀ pid n d env,
        (updatePhotoDetails pid n d user env).1.success = false ∧
        (updatePhotoDetails pid n d user env).2.1 = []) ∧
    (∀ pid env,
        (deletePhotoFromDatabase pid user env).1.success = false ∧
        (deletePhotoFromDatabase pid user env).2.1 = []) := by
  have hc : checkAdminPermission user = false := by
    rcases h with rfl | ⟨u, rfl, hu⟩
    · rfl
    · simpa [checkAdminPermission] using hu
  rcases user with _ | u
  · simp [savePhotoToDatabase, updatePhotoType, updatePhotoDetails,
      deletePhotoFromDatabase]
  · simp [savePhotoToDatabase, updatePhotoType, updatePhotoDetails,
      deletePhotoFromDatabase, hc]

/-- Witness for C9 at the concrete non-admin user. -/
theorem C9_requireAdmin_blocks_witness :
    (savePhotoToDatabase id id pd0 plainUser envOk).1.success = false ∧
    (savePhotoToDatabase id id pd0 plainUser envOk).2.1 = [] ∧
    (deletePhotoFromDatabase 7 plainUser ⟨.ok (some "p"), none, none⟩).1.success = false ∧
    (deletePhotoFromDatabase 7 plainUser ⟨.ok (some "p"), none, none⟩).2.1 = [] := by
  have h := C9_requireAdmin_blocks plainUser
    (Or.inr ⟨⟨"u2", none⟩, rfl, by decide⟩)
  exact ⟨(h.1 id id pd0 envOk).1, (h.1 id id pd0 envOk).2,
    (h.2.2.2 7 ⟨.ok (some "p"), none, none⟩).1,
    (h.2.2.2 7 ⟨.ok (some "p"), none, none⟩).2⟩

/-- C10: for every image whose approximate decoded size
(`length * 3 / 4` bytes) exceeds 2 MB, `savePhotoToDatabase` returns
`success:false` without attempting any storage upload or database
insert. -/
theorem C10_size_limit (compress thumb : String → String) (pd : PhotoData)
    (user : Option User) (env : SaveEnv)
    (h : imageSizeExceeded pd.imageData.length = true) :
    (savePhotoToDatabase compress thumb pd user env).1.success = false ∧
    (savePhotoToDatabase compress thumb pd user env).2.1 = [] := by
  rcases user with _ | u
  · simp [savePhotoToDatabase]
  · by_cases hA : checkAdminPermission (some u) = false
    · simp [savePhotoToDatabase, hA]
    · simp [savePhotoToDatabase, hA, h]

/-- A base64 payload of 3,000,000 characters, whose approximate decoded
size 2,250,000 bytes exceeds the 2 MB limit. -/
def bigImage : String := ⟨List.replicate 3000000 'a'⟩

/-- The oversized capture used by the C10 witness. -/
def pdBig : PhotoData := ⟨bigImage, none, 0, 0, "2024-01-01", none, none, none⟩

/-- Witness for C10 at a concrete 3,000,000-character payload. -/
theorem C10_size_limit_witness :
    imageSizeExceeded pdBig.imageData.length = true ∧
    (savePhotoToDatabase id id pdBig adminUser envOk).1.success = false ∧
    (savePhotoToDatabase id id pdBig adminUser envOk).2.1 = [] := by
  have hlen : pdBig.imageData.length = 3000000 := by
    show (String.mk (List.replicate 3000000 'a')).length = 3000000
    rw [String.length, List.length_replicate]
  have h : imageSizeExceeded pdBig.imageData.length = true := by
    rw [hlen]; decide
  exact ⟨h, (C10_size_limit id id pdBig adminUser envOk h).1,
    (C10_size_limit id id pdBig adminUser envOk h).2⟩

/-- C1: if the database insert fails after the original image was uploaded,
`savePhotoToDatabase` attempts to delete the uploaded original; the
cleanup outcome changes neither the result nor the attempted backend
operations (a cleanup failure is only logged), and the function returns
`success:false` in either case. -/
theorem C1_insert_failure_rollback (compress thumb : String → String)
    (pd : PhotoData) (user : Option User) (env : SaveEnv) (p e : String)
    (hA : checkAdminPermission user = true)
    (hS : imageSizeExceeded pd.imageData.length = false)
    (hU : env.uploadResult = .ok p) (hI : env.insertError = some e) :
    (savePhotoToDatabase compress thumb pd user env).1.success = false ∧
    BackendOp.storageDelete p ∈ (savePhotoToDatabase compress thumb pd user env).2.1 ∧
    (∀ ce,
      (savePhotoToDatabase compress thumb pd user
          { env with cleanupError := ce }).1 =
        (savePhotoToDatabase compress thumb pd user env).1 ∧
      (savePhotoToDatabase compress thumb pd user
          { env with cleanupError := ce }).2.1 =
        (savePhotoToDatabase compress thumb pd user env).2.1) ∧
    (∀ ce, env.cleanupError = some ce →
      ("Error cleaning up uploaded file: " ++ ce) ∈
        (savePhotoToDatabase compress thumb pd user env).2.2) := by
  rcases user with _ | u
  · simp [checkAdminPermission] at hA
  · have hA' : checkAdminPermission (some u) = false ↔ False := by simp [hA]
    refine ⟨?_, ?_, ?_, ?_⟩
    · simp [savePhotoToDatabase, hA', hS, hU, hI]
    · simp [savePhotoToDatabase, hA', hS, hU, hI]
    · intro ce
      constructor <;> simp [savePhotoToDatabase, hA', hS, hU, hI]
    · intro ce hce
      simp [savePhotoToDatabase, hA', hS, hU, hI, hce]

/-- Witness for C1: insert failure with failing cleanup, at concrete
inputs. -/
theorem C1_insert_failure_rollback_witness :
    (savePhotoToDatabase id id pd0 adminUser envInsFail).1.success = false ∧
    BackendOp.storageDelete "p0" ∈
      (savePhotoToDatabase id id pd0 adminUser envInsFail).2.1 ∧
    ("Error cleaning up uploaded file: cleanup boom") ∈
      (savePhotoToDatabase id id pd0 adminUser envInsFail).2.2 := by
  have h := C1_insert_failure_rollback id id pd0 adminUser envInsFail "p0"
    "insert boom" (by decide) (by decide) rfl rfl
  exact ⟨h.1, h.2.1, h.2.2.2 "cleanup boom" rfl⟩

/-- C2: `deletePhotoFromDatabase` reports overall success exactly when the
database row deletion succeeds — a failed storage-path fetch or a failed
storage-object delete does not change the outcome. -/
theorem C2_delete_success_iff (photoId : Nat) (user : Option User)
    (env : DeleteEnv) (hA : checkAdminPermission user = true) :
    (deletePhotoFromDatabase photoId user env).1.success = true ↔
      env.deleteError = none := by
  rcases user with _ | u
  · simp [checkAdminPermission] at hA
  · have hA' : checkAdminPermission (some u) = false ↔ False := by simp [hA]
    rcases env with ⟨fr, de, se⟩
    rcases de with _ | e
    · rcases fr with e' | sp
      · simp [deletePhotoFromDatabase, hA']
      · rcases sp with _ | sp
        · simp [deletePhotoFromDatabase, hA']
        · rcases se with _ | se' <;>
            by_cases hsp : sp = "" <;>
            simp [deletePhotoFromDatabase, hA', hsp]
    · simp [deletePhotoFromDatabase, hA']

/-- Witness for C2: row delete succeeds while both the fetch and the
storage delete fail. -/
theorem C2_delete_success_iff_witness :
    ((deletePhotoFromDatabase 5 adminUser ⟨.ok (some "sp"), none, some "storage boom"⟩).1.success = true ↔
      (none : Option String) = none) ∧
    ((deletePhotoFromDatabase 6 adminUser ⟨.error "fetch boom", some "del boom", none⟩).1.success = true ↔
      (some "del boom" : Option String) = none) :=
  ⟨C2_delete_success_iff 5 adminUser ⟨.ok (some "sp"), none, some "storage boom"⟩ (by decide),
   C2_delete_success_iff 6 adminUser ⟨.error "fetch boom", some "del boom", none⟩ (by decide)⟩

/-- C5: every row the insert is attempted with carries the capture's
latitude and longitude, a non-null compressed payload, a non-null
thumbnail and a non-null storage pointer, and the insert happens only
after the original upload succeeded (the storage pointer is the uploaded
path). -/
theorem C5_insert_row_invariants (compress thumb : String → String)
    (pd : PhotoData) (user : Option User) (env : SaveEnv) (row : PhotoRow)
    (h : BackendOp.dbInsert row ∈ (savePhotoToDatabase compress thumb pd user env).2.1) :
    row.lat = pd.lat ∧ row.lng = pd.lng ∧
    row.image_data.isSome = true ∧ row.thumbnail_data.isSome = true ∧
    row.storage_path.isSome = true ∧
    ∃ p, env.uploadResult = Except.ok p ∧ row.storage_path = some p := by
  rcases user with _ | u
  · simp [savePhotoToDatabase] at h
  · by_cases hA : checkAdminPermission (some u) = false
    · simp [savePhotoToDatabase, hA] at h
    · by_cases hS : imageSizeExceeded pd.imageData.length
      · simp [savePhotoToDatabase, hA, hS] at h
      · rcases hU : env.uploadResult with e | p
        · simp [savePhotoToDatabase, hA, hS, hU] at h
        · rcases hI : env.insertError with _ | e <;>
          · simp [savePhotoToDatabase, hA, hS, hU, hI] at h
            subst h
            exact ⟨rfl, rfl, rfl, rfl, rfl, p, rfl, rfl⟩

/-- Witness for C5 at a successful concrete save. -/
theorem C5_insert_row_invariants_witness :
    ∃ row, BackendOp.dbInsert row ∈
        (savePhotoToDatabase id id pd0 adminUser envOk).2.1 ∧
      row.lat = pd0.lat ∧ row.lng = pd0.lng ∧
      row.image_data.isSome = true ∧ row.thumbnail_data.isSome = true ∧
      row.storage_path.isSome = true ∧
      ∃ p, envOk.uploadResult = Except.ok p ∧ row.storage_path = some p := by
  have h7 : "imgdata".length = 7 := rfl
  refine ⟨⟨pd0.lat, pd0.lng, some "imgdata", some "imgdata",
    some "u1/T0_f.jpg", "2024-01-01", some "f.jpg", some "coins", none, none,
    "u1"⟩, ?_, ?_⟩
  · simp [savePhotoToDatabase, adminUser, envOk, pd0, checkAdminPermission,
      imageSizeExceeded, maxSizeInBytes, orNull, orElseStr, h7]
  · refine C5_insert_row_invariants id id pd0 adminUser envOk _ ?_
    simp [savePhotoToDatabase, adminUser, envOk, pd0, checkAdminPermission,
      imageSizeExceeded, maxSizeInBytes, orNull, orElseStr, h7]

/-- The frame of a row that the edit operations must not touch:
latitude, longitude, the compressed payload and the storage pointer. -/
def framePreserved (r r' : PhotoRow) : Prop :=
  r'.lat = r.lat ∧ r'.lng = r.lng ∧ r'.image_data = r.image_data ∧
    r'.storage_path = r.storage_path

/-- C6: `updatePhotoType` issues only a `type`-column update,
`updatePhotoDetails` only a `name`/`description` update, and the script's
`updatePhotoWithThumbnail` only a `thumbnail_data` update; applying any of
these payloads to a row leaves latitude, longitude, the compressed
payload and the storage pointer unchanged. -/
theorem C6_update_frame :
    (∀ pid t user env op, op ∈ (updatePhotoType pid t user env).2.1 →
        op = BackendOp.dbUpdate pid [ColumnWrite.type t] ∧
        ∀ r, framePreserved r (applyWrites [ColumnWrite.type t] r)) ∧
    (∀ pid n d user env op, op ∈ (updatePhotoDetails pid n d user env).2.1 →
        op = BackendOp.dbUpdate pid
            [ColumnWrite.name (orNull n), ColumnWrite.description (orNull d)] ∧
        ∀ r, framePreserved r (applyWrites
            [ColumnWrite.name (orNull n), ColumnWrite.description (orNull d)] r)) ∧
    (∀ pid td ue op, op ∈ (updatePhotoWithThumbnail pid td ue).2 →
        op = BackendOp.dbUpdate pid [ColumnWrite.thumbnail_data (some td)] ∧
        ∀ r, framePreserved r (applyWrites
            [ColumnWrite.thumbnail_data (some td)] r)) := by
  refine ⟨?_, ?_, ?_⟩
  · intro pid t user env op hop
    have : op = BackendOp.dbUpdate pid [ColumnWrite.type t] := by
      rcases user with _ | u
      · simp [updatePhotoType] at hop
      · by_cases hA : checkAdminPermission (some u) = false
        · simp [updatePhotoType, hA] at hop
        · rcases hE : env.updateError with _ | e <;>
            simpa [updatePhotoType, hA, hE] using hop
    exact ⟨this, fun r => by
      simp [framePreserved, applyWrites, applyWrite]⟩
  · intro pid n d user env op hop
    have : op = BackendOp.dbUpdate pid
        [ColumnWrite.name (orNull n), ColumnWrite.description (orNull d)] := by
      rcases user with _ | u
      · simp [updatePhotoDetails] at hop
      · by_cases hA : checkAdminPermission (some u) = false
        · simp [updatePhotoDetails, hA] at hop
        · rcases hE : env.updateError with _ | e <;>
            simpa [updatePhotoDetails, hA, hE] using hop
    exact ⟨this, fun r => by
      simp [framePreserved, applyWrites, applyWrite]⟩
  · intro pid td ue op hop
    have : op = BackendOp.dbUpdate pid [ColumnWrite.thumbnail_data (some td)] := by
      rcases ue with _ | e <;> simpa [updatePhotoWithThumbnail] using hop
    exact ⟨this, fun r => by
      simp [framePreserved, applyWrites, applyWrite]⟩

/-- Witness for C6 at concrete update calls. -/
theorem C6_update_frame_witness :
    ((updatePhotoType 3 (some "relics") adminUser ⟨none, []⟩).2.1.head? =
        some (BackendOp.dbUpdate 3 [ColumnWrite.type (some "relics")])) ∧
    (∀ r, framePreserved r
        (applyWrites [ColumnWrite.type (some "relics")] r)) ∧
    (∀ r, framePreserved r (applyWrites
        [ColumnWrite.name (orNull (some "n")), ColumnWrite.description (orNull none)] r)) ∧
    (∀ r, framePreserved r
        (applyWrites [ColumnWrite.thumbnail_data (some "td")] r)) := by
  have hmem : BackendOp.dbUpdate 3 [ColumnWrite.type (some "relics")] ∈
      (updatePhotoType 3 (some "relics") adminUser ⟨none, []⟩).2.1 := by
    simp [updatePhotoType, adminUser, checkAdminPermission]
  have h1 := (C6_update_frame.1 3 (some "relics") adminUser ⟨none, []⟩ _ hmem).2
  have hmem2 : BackendOp.dbUpdate 4
      [ColumnWrite.name (orNull (some "n")), ColumnWrite.description (orNull none)] ∈
      (updatePhotoDetails 4 (some "n") none adminUser ⟨none, []⟩).2.1 := by
    simp [updatePhotoDetails, adminUser, checkAdminPermission]
  have h2 := (C6_update_frame.2.1 4 (some "n") none adminUser ⟨none, []⟩ _ hmem2).2
  have hmem3 : BackendOp.dbUpdate 5 [ColumnWrite.thumbnail_data (some "td")] ∈
      (updatePhotoWithThumbnail 5 "td" none).2 := by
    simp [updatePhotoWithThumbnail]
  have h3 := (C6_update_frame.2.2 5 "td" none _ hmem3).2
  refine ⟨?_, h1, h2, h3⟩
  simp [updatePhotoType, adminUser, checkAdminPermission]

/-- An operation whose every attempt succeeds is run once by
`retryOperation`, with its first result and no backoff. -/
theorem retryOperation_ok (x : α) (n : Nat) :
    retryOperation (fun _ => Except.ok x) n = (Except.ok x, []) := by
  cases n <;> simp [retryOperation, retryLoop]

/-- C3: the thumbnail stored with a new photo row is computed from the
compressed payload (the row inserted by `savePhotoToDatabase` stores
`compress imageData` and `thumb (compress imageData)`), and every
thumbnail written back by the script's `processBatch` is recomputed by
sharp from that photo's stored `image_data` column. -/
theorem C3_thumbnail_from_compressed :
    (∀ (compress thumb : String → String) pd user env row,
        BackendOp.dbInsert row ∈
          (savePhotoToDatabase compress thumb pd user env).2.1 →
        row.image_data = some (compress pd.imageData) ∧
        row.thumbnail_data = some (thumb (compress pd.imageData))) ∧
    (∀ (sharpThumb : Option String → Except String String) env photos pid ws,
        BackendOp.dbUpdate pid ws ∈ (processBatch sharpThumb env photos).2 →
        ∃ photo ∈ photos, photo.id = pid ∧
          ∃ t, sharpThumb photo.image_data = Except.ok t ∧
            ws = [ColumnWrite.thumbnail_data (some t)]) := by
  constructor
  · intro compress thumb pd user env row h
    rcases user with _ | u
    · simp [savePhotoToDatabase] at h
    · by_cases hA : checkAdminPermission (some u) = false
      · simp [savePhotoToDatabase, hA] at h
      · by_cases hS : imageSizeExceeded pd.imageData.length
        · simp [savePhotoToDatabase, hA, hS] at h
        · rcases hU : env.uploadResult with e | p
          · simp [savePhotoToDatabase, hA, hS, hU] at h
          · rcases hI : env.insertError with _ | e <;>
            · simp [savePhotoToDatabase, hA, hS, hU, hI] at h
              subst h
              exact ⟨rfl, rfl⟩
  · intro sharpThumb env photos pid ws h
    induction photos with
    | nil => simp [processBatch] at h
    | cons photo rest ih =>
        rw [processBatch] at h
        rcases List.mem_append.1 h with hhead | htail
        · refine ⟨photo, List.mem_cons_self photo rest, ?_⟩
          by_cases hdry : env.dryRun
          · simp [processSingle, hdry] at hhead
          · rcases hT : sharpThumb photo.image_data with e | t
            · simp [processSingle, hdry, hT] at hhead
            · have hops : (processSingle sharpThumb env photo).2 =
                  [BackendOp.dbUpdate photo.id
                    [ColumnWrite.thumbnail_data (some t)]] := by
                rcases hE : env.updateError photo.id with _ | e <;>
                  simp [processSingle, hdry, hT, hE, updatePhotoWithThumbnail,
                    retryOperation_ok]
              rw [hops] at hhead
              simp only [List.mem_singleton] at hhead
              rcases hhead with ⟨⟩
              exact ⟨rfl, t, rfl, rfl⟩
        · rcases ih htail with ⟨ph, hmem, hrest⟩
          exact ⟨ph, List.mem_cons_of_mem _ hmem, hrest⟩

/-- The one-photo batch used by the C3 witness. -/
def sp9 : ScriptPhoto := ⟨9, some "stored", none, none, "t"⟩

/-- A concrete stand-in for the sharp pipeline, used by the C3 witness. -/
def sharpDemo (o : Option String) : Except String String :=
  Except.ok (orElseStr o "" ++ "#s")

/-- Witness for C3 at a successful concrete save and a one-photo batch. -/
theorem C3_thumbnail_from_compressed_witness :
    (∃ row, BackendOp.dbInsert row ∈
        (savePhotoToDatabase (fun s => s ++ "#c") (fun s => s ++ "#t")
          pd0 adminUser envOk).2.1 ∧
      row.image_data = some ("imgdata" ++ "#c") ∧
      row.thumbnail_data = some ("imgdata" ++ "#c" ++ "#t")) ∧
    (∃ photo ∈ [sp9],
      photo.id = 9 ∧
      ∃ t, sharpDemo photo.image_data = Except.ok t ∧
        [ColumnWrite.thumbnail_data (some ("stored" ++ "#s"))] =
          [ColumnWrite.thumbnail_data (some t)]) := by
  have h7 : "imgdata".length = 7 := rfl
  have hmem : BackendOp.dbInsert
      ⟨pd0.lat, pd0.lng, some ("imgdata" ++ "#c"),
        some ("imgdata" ++ "#c" ++ "#t"), some "u1/T0_f.jpg", "2024-01-01",
        some "f.jpg", some "coins", none, none, "u1"⟩ ∈
      (savePhotoToDatabase (fun s => s ++ "#c") (fun s => s ++ "#t")
        pd0 adminUser envOk).2.1 := by
    simp [savePhotoToDatabase, adminUser, envOk, pd0, checkAdminPermission,
      imageSizeExceeded, maxSizeInBytes, orNull, orElseStr, h7]
  have hbatch : BackendOp.dbUpdate 9
      [ColumnWrite.thumbnail_data (some ("stored" ++ "#s"))] ∈
      (processBatch sharpDemo ⟨false, fun _ => none⟩ [sp9]).2 := by
    simp [processBatch, processSingle, sp9, sharpDemo, orElseStr,
      updatePhotoWithThumbnail, retryOperation_ok]
  refine ⟨⟨_, hmem, ?_⟩, ?_⟩
  · exact C3_thumbnail_from_compressed.1 (fun s => s ++ "#c") (fun s => s ++ "#t")
      pd0 adminUser envOk _ hmem
  · exact C3_thumbnail_from_compressed.2 sharpDemo
      ⟨false, fun _ => none⟩ _ 9 _ hbatch

/-- C4: `retryOperation` retries only errors whose message contains
"timeout" or "canceling statement", sleeping `attempt * 2000` ms before
each retry (so the backoff sequence is always a prefix of
`[2000, 4000]` at the fixed `MAX_RETRIES = 3`); a non-timeout error is
rethrown after a single attempt; and when all three attempts fail with
timeouts the third error escapes, which the script's fatal catch turns
into an aborted run. -/
theorem C4_retry_backoff :
    (∀ (α : Type) (op : Nat → Except String α) e, op 1 = .error e →
        isTimeoutError e = false →
        retryOperation op MAX_RETRIES = (.error e, [])) ∧
    (∀ (α : Type) (op : Nat → Except String α),
        (retryOperation op MAX_RETRIES).2 = [] ∨
        (retryOperation op MAX_RETRIES).2 = [2000] ∨
        (retryOperation op MAX_RETRIES).2 = [2000, 4000]) ∧
    (∀ (α : Type) (op : Nat → Except String α) e1 e2 e3,
        op 1 = .error e1 → op 2 = .error e2 → op 3 = .error e3 →
        isTimeoutError e1 = true → isTimeoutError e2 = true →
        retryOperation op MAX_RETRIES = (.error e3, [2000, 4000]) ∧
        runWithFatalCatch (retryOperation op MAX_RETRIES).1 =
          RunOutcome.aborted e3) := by
  refine ⟨?_, ?_, ?_⟩
  · intro α op e h1 ht
    simp [retryOperation, MAX_RETRIES, retryLoop, h1, ht]
  · intro α op
    rcases h1 : op 1 with e1 | a1
    · by_cases ht1 : isTimeoutError e1 = true
      · rcases h2 : op 2 with e2 | a2
        · by_cases ht2 : isTimeoutError e2 = true
          · rcases h3 : op 3 with e3 | a3
            · right; right
              simp [retryOperation, MAX_RETRIES, retryLoop, h1, ht1, h2, ht2, h3]
            · right; right
              simp [retryOperation, MAX_RETRIES, retryLoop, h1, ht1, h2, ht2, h3]
          · right; left
            simp [retryOperation, MAX_RETRIES, retryLoop, h1, ht1, h2, ht2]
        · right; left
          simp [retryOperation, MAX_RETRIES, retryLoop, h1, ht1, h2]
      · left
        simp [retryOperation, MAX_RETRIES, retryLoop, h1, ht1]
    · left
      simp [retryOperation, MAX_RETRIES, retryLoop, h1]
  · intro α op e1 e2 e3 h1 h2 h3 ht1 ht2
    constructor
    · simp [retryOperation, MAX_RETRIES, retryLoop, h1, ht1, h2, ht2, h3]
    · simp [retryOperation, MAX_RETRIES, retryLoop, h1, ht1, h2, ht2, h3,
        runWithFatalCatch]

/-- Witness for C4: a permanently timing-out operation aborts the run
after three attempts with delays 2000 and 4000 ms, and a non-timeout
error is thrown at once. -/
theorem C4_retry_backoff_witness :
    retryOperation (fun n => (Except.error ("timeout " ++ toString n) :
        Except String Nat)) MAX_RETRIES = (.error "timeout 3", [2000, 4000]) ∧
    runWithFatalCatch (retryOperation (fun n =>
        (Except.error ("timeout " ++ toString n) : Except String Nat))
        MAX_RETRIES).1 = RunOutcome.aborted "timeout 3" ∧
    retryOperation (fun _ => (Except.error "fatal" : Except String Nat))
        MAX_RETRIES = (.error "fatal", []) := by
  have h3 := C4_retry_backoff.2.2 Nat
    (fun n => (Except.error ("timeout " ++ toString n) : Except String Nat))
    "timeout 1" "timeout 2" "timeout 3" rfl rfl rfl (by decide) (by decide)
  have h1 := C4_retry_backoff.1 Nat
    (fun _ => (Except.error "fatal" : Except String Nat)) "fatal" rfl (by decide)
  exact ⟨h3.1, h3.2, h1⟩

/-- A migration-script photo whose `storage_path` is set to the empty
string. -/
def migEmptyPath : MigPhoto := ⟨10, some "x", none, none, none, none, "t", some ""⟩

/-- Counterexample to C7 as stated: a photo whose `storage_path` is
already set — to the empty string — is not skipped by `processPhoto`; the
script proceeds to upload it, because the JavaScript guard
`if (photo.storage_path)` tests truthiness and `""` is falsy. -/
theorem C7_counterexample :
    migEmptyPath.storage_path.isSome = true ∧
    (processPhoto id ⟨false, false⟩ ⟨Except.ok "up", none, none⟩
        migEmptyPath).1.skipped = false ∧
    (processPhoto id ⟨false, false⟩ ⟨Except.ok "up", none, none⟩
        migEmptyPath).2 ≠ [] := by
  refine ⟨rfl, ?_, ?_⟩ <;>
    simp [processPhoto, migEmptyPath, jsTruthyStr, createUniqueFilename,
      orElseStr]

/-- C7 (amended): every batch query returns only photos with null
`storage_path`, non-null `image_data` and id strictly above the recorded
last processed id, in ascending id order, at most `batchSize` of them;
and `processPhoto` skips, attempting no backend call, any photo whose
`storage_path` is set to a non-empty (JavaScript-truthy) string. -/
theorem C7_migration_query_and_skip :
    (∀ db batchSize lastId p, p ∈ getPhotosToMigrate db batchSize lastId →
        p.storage_path = none ∧ p.image_data.isSome = true ∧ lastId < p.id) ∧
    (∀ db batchSize lastId,
        (getPhotosToMigrate db batchSize lastId).length ≤ batchSize) ∧
    (∀ db batchSize lastId,
        (getPhotosToMigrate db batchSize lastId).Pairwise
          (fun a b => a.id ≤ b.id)) ∧
    (∀ isoDate opts env photo sp, photo.storage_path = some sp → sp ≠ "" →
        processPhoto isoDate opts env photo =
          (⟨true, true, some "Already migrated", none, none⟩, [])) := by
  refine ⟨?_, ?_, ?_, ?_⟩
  · intro db batchSize lastId p hp
    have h1 : p ∈ (db.filter fun p =>
        p.storage_path.isNone && p.image_data.isSome &&
          decide (lastId < p.id)).mergeSort
        (fun a b => decide (a.id ≤ b.id)) :=
      List.take_subset _ _ hp
    have h2 := List.mem_mergeSort.1 h1
    have h3 := List.mem_filter.1 h2
    simp only [Bool.and_eq_true, decide_eq_true_eq, Option.isNone_iff_eq_none]
      at h3
    exact ⟨h3.2.1.1, h3.2.1.2, h3.2.2⟩
  · intro db batchSize lastId
    simp only [getPhotosToMigrate, List.length_take]
    exact Nat.min_le_left _ _
  · intro db batchSize lastId
    have hs := @List.sorted_mergeSort MigPhoto
      (fun a b => decide (a.id ≤ b.id))
      (fun a b c hab hbc => by
        simp only [decide_eq_true_eq] at *; omega)
      (fun a b => by
        by_cases h : a.id ≤ b.id <;> simp [h]
        omega)
      (db.filter fun p =>
        p.storage_path.isNone && p.image_data.isSome && decide (lastId < p.id))
    have ht := List.Pairwise.sublist (List.take_sublist batchSize _) hs
    exact ht.imp (fun h => by simpa using h)
  · intro isoDate opts env photo sp h1 h2
    simp [processPhoto, jsTruthyStr, h1, h2]

/-- Witness for C7 (amended) at a concrete table and photo. -/
theorem C7_migration_query_and_skip_witness :
    (∀ p, p ∈ getPhotosToMigrate
        [⟨5, some "x", none, none, none, none, "t", none⟩,
         ⟨2, some "y", none, none, none, none, "t", some "p"⟩,
         ⟨7, some "z", none, none, none, none, "t", none⟩] 10 4 →
      p.storage_path = none ∧ p.image_data.isSome = true ∧ 4 < p.id) ∧
    processPhoto id ⟨false, false⟩ ⟨Except.ok "up", none, none⟩
        ⟨3, some "x", none, none, none, none, "t", some "done"⟩ =
      (⟨true, true, some "Already migrated", none, none⟩, []) :=
  ⟨fun p hp => (C7_migration_query_and_skip.1
      [⟨5, some "x", none, none, none, none, "t", none⟩,
       ⟨2, some "y", none, none, none, none, "t", some "p"⟩,
       ⟨7, some "z", none, none, none, none, "t", none⟩] 10 4 p hp),
   C7_migration_query_and_skip.2.2.2 id ⟨false, false⟩
     ⟨Except.ok "up", none, none⟩
     ⟨3, some "x", none, none, none, none, "t", some "done"⟩ "done" rfl
     (by decide)⟩

/-! ### Decimal digit strings: round-trip facts -/

theorem isDigitChar_digitChar {d : Nat} (h : d < 10) :
    isDigitChar (digitChar d) = true := by
  interval_cases d <;> decide

theorem charToDigit_digitChar {d : Nat} (h : d < 10) :
    charToDigit (digitChar d) = d := by
  interval_cases d <;> decide

theorem natToChars_ne_nil (n : Nat) : natToChars n ≠ [] := by
  rw [natToChars]
  by_cases h : n < 10 <;> simp [h]

theorem digits_natToChars (n : Nat) :
    ∀ c ∈ natToChars n, isDigitChar c = true := by
  induction n using Nat.strong_induction_on with
  | _ n ih =>
    intro c hc
    rw [natToChars] at hc
    by_cases h : n < 10
    · rw [dif_pos h] at hc
      simp only [List.mem_singleton] at hc
      exact hc ▸ isDigitChar_digitChar h
    · rw [dif_neg h] at hc
      rcases List.mem_append.1 hc with h1 | h1
      · exact ih (n / 10) (Nat.div_lt_self (by omega) (by omega)) c h1
      · simp only [List.mem_singleton] at h1
        exact h1 ▸ isDigitChar_digitChar (Nat.mod_lt n (by omega))

theorem digits_padDigits (k : Nat) : ∀ m, ∀ c ∈ padDigits k m,
    isDigitChar c = true := by
  induction k with
  | zero => intro m c hc; simp [padDigits] at hc
  | succ k ih =>
      intro m c hc
      rcases List.mem_append.1 hc with h1 | h1
      · exact ih (m / 10) c h1
      · simp only [List.mem_singleton] at h1
        exact h1 ▸ isDigitChar_digitChar (Nat.mod_lt m (by omega))

theorem length_padDigits (k : Nat) : ∀ m, (padDigits k m).length = k := by
  induction k with
  | zero => intro m; simp [padDigits]
  | succ k ih => intro m; simp [padDigits, ih]

theorem takeDigits_append (ds : List Char)
    (h : ∀ c ∈ ds, isDigitChar c = true) (rest : List Char) :
    takeDigits (ds ++ rest) = (ds ++ (takeDigits rest).1, (takeDigits rest).2) := by
  induction ds with
  | nil => simp [takeDigits]
  | cons c cs ih =>
      have hc : isDigitChar c = true := h c (List.mem_cons_self _ _)
      have ih' := ih fun c hc' => h c (List.mem_cons_of_mem _ hc')
      simp [takeDigits, hc, ih']

theorem takeDigits_all (ds : List Char)
    (h : ∀ c ∈ ds, isDigitChar c = true) : takeDigits ds = (ds, []) := by
  have := takeDigits_append ds h []
  simpa [takeDigits] using this

theorem foldl_digits_natToChars (n : Nat) :
    ∀ a, (natToChars n).foldl (fun acc c => 10 * acc + charToDigit c) a =
      a * 10 ^ (natToChars n).length + n := by
  induction n using Nat.strong_induction_on with
  | _ n ih =>
    intro a
    rw [natToChars]
    by_cases h : n < 10
    · rw [dif_pos h]
      simp [List.foldl, charToDigit_digitChar h]
      ring
    · rw [dif_neg h]
      rw [List.foldl_append, ih (n / 10) (Nat.div_lt_self (by omega) (by omega)) a]
      simp only [List.foldl, charToDigit_digitChar (Nat.mod_lt n (by omega)),
        List.length_append, List.length_singleton]
      have hdm : 10 * (n / 10) + n % 10 = n := Nat.div_add_mod n 10
      calc 10 * (a * 10 ^ (natToChars (n / 10)).length + n / 10) + n % 10
          = a * (10 ^ (natToChars (n / 10)).length * 10) +
              (10 * (n / 10) + n % 10) := by ring
        _ = a * 10 ^ ((natToChars (n / 10)).length + 1) + n := by
              rw [hdm, pow_succ]

theorem digitsVal_natToChars (n : Nat) : digitsVal (natToChars n) = n := by
  have := foldl_digits_natToChars n 0
  simpa [digitsVal] using this

theorem foldl_digits_padDigits (k : Nat) : ∀ m a,
    (padDigits k m).foldl (fun acc c => 10 * acc + charToDigit c) a =
      a * 10 ^ k + m % 10 ^ k := by
  induction k with
  | zero => intro m a; simp [padDigits, Nat.mod_one]
  | succ k ih =>
      intro m a
      rw [padDigits, List.foldl_append, ih (m / 10) a]
      simp only [List.foldl, charToDigit_digitChar (Nat.mod_lt m (by omega))]
      have hmm : m % (10 * 10 ^ k) = m % 10 + 10 * (m / 10 % 10 ^ k) :=
        Nat.mod_mul
      have hp : (10 : Nat) ^ (k + 1) = 10 * 10 ^ k := by rw [pow_succ]; ring
      calc 10 * (a * 10 ^ k + m / 10 % 10 ^ k) + m % 10
          = a * (10 * 10 ^ k) + (m % 10 + 10 * (m / 10 % 10 ^ k)) := by ring
        _ = a * 10 ^ (k + 1) + m % 10 ^ (k + 1) := by rw [← hmm, hp]

theorem digitsVal_padDigits (k m : Nat) :
    digitsVal (padDigits k m) = m % 10 ^ k := by
  have := foldl_digits_padDigits k m 0
  simpa [digitsVal] using this

theorem isDigitChar_ne_sign {c : Char} (h : isDigitChar c = true) :
    c ≠ '-' ∧ c ≠ '+' := by
  constructor <;> rintro rfl <;> simp [isDigitChar] at h

/-- Parsing the concatenation `digits ++ "." ++ six padded digits`
recovers the integer and fractional parts. -/
theorem parseUnsigned_concat (m r : Nat) (hr : r < 1000000) :
    parseUnsigned (natToChars m ++ '.' :: padDigits 6 r) =
      some ((m : ℚ) + (r : ℚ) / 1000000) := by
  have h1 := takeDigits_append (natToChars m) (digits_natToChars m)
    ('.' :: padDigits 6 r)
  have hdot : takeDigits ('.' :: padDigits 6 r) = ([], '.' :: padDigits 6 r) := by
    simp [takeDigits, isDigitChar]
  rw [hdot] at h1
  have h2 : takeDigits (padDigits 6 r) = (padDigits 6 r, []) :=
    takeDigits_all _ (digits_padDigits 6 r)
  have hne : (natToChars m).isEmpty = false := by
    rcases hn : natToChars m with _ | ⟨c, cs⟩
    · exact absurd hn (natToChars_ne_nil m)
    · rfl
  rw [parseUnsigned]
  rw [h1]
  simp only [List.append_nil]
  rw [h2]
  simp only [hne, Bool.false_and, if_false, Bool.false_eq_true]
  rw [digitsVal_natToChars, digitsVal_padDigits, length_padDigits]
  have hrr : r % 10 ^ 6 = r := Nat.mod_eq_of_lt (by norm_num; omega)
  rw [hrr]
  norm_num

/-- Recombining a base-1000000 division: integer part plus scaled
remainder. -/
theorem nat_div_mod_q (n : Nat) :
    ((n / 1000000 : Nat) : ℚ) + ((n % 1000000 : Nat) : ℚ) / 1000000 =
      (n : ℚ) / 1000000 := by
  have hdm := Nat.div_add_mod n 1000000
  have h : ((1000000 * (n / 1000000) + n % 1000000 : Nat) : ℚ) = (n : ℚ) := by
    rw [hdm]
  push_cast at h
  field_simp
  linarith

/-- The numeric value printed by `toFixed6Pos`. -/
theorem parseUnsigned_toFixed6Pos (q : ℚ) :
    parseUnsigned (toFixed6Pos q) =
      some (((⌊q * 1000000 + 1 / 2⌋.toNat : Nat) : ℚ) / 1000000) := by
  rw [toFixed6Pos]
  rw [parseUnsigned_concat _ _ (Nat.mod_lt _ (by norm_num))]
  congr 1
  exact nat_div_mod_q _

/-- The head of a printed natural number is a digit, hence not a sign. -/
theorem natToChars_head (m : Nat) :
    ∃ c cs, natToChars m = c :: cs ∧ isDigitChar c = true := by
  rcases hn : natToChars m with _ | ⟨c, cs⟩
  · exact absurd hn (natToChars_ne_nil m)
  · exact ⟨c, cs, rfl, digits_natToChars m c (hn ▸ List.mem_cons_self c cs)⟩

/-- `parseFloat` of a string starting with a minus sign. -/
theorem jsParseFloat_mk_neg (l : List Char) :
    jsParseFloat ⟨'-' :: l⟩ = (parseUnsigned l).map (fun x => -x) := by
  simp [jsParseFloat, String.toList]

/-- `parseFloat` of a string whose characters start with a digit falls
through to the unsigned parse. -/
theorem jsParseFloat_mk_digit (cs : List Char) (c : Char) (rest : List Char)
    (hcs : cs = c :: rest) (hd : isDigitChar c = true) :
    jsParseFloat ⟨cs⟩ = parseUnsigned cs := by
  subst hcs
  obtain ⟨hm, hp⟩ := isDigitChar_ne_sign hd
  simp [jsParseFloat, String.toList, hm, hp]

/-- `parseInt` of a string starting with a minus sign. -/
theorem jsParseInt_mk_neg (l : List Char) :
    jsParseInt ⟨'-' :: l⟩ =
      if (takeDigits l).1.isEmpty = true then none
      else some (-(digitsVal (takeDigits l).1 : ℤ)) := by
  simp [jsParseInt, String.toList]

/-- `parseInt` of a string whose characters start with a digit. -/
theorem jsParseInt_mk_digit (cs : List Char) (c : Char) (rest : List Char)
    (hcs : cs = c :: rest) (hd : isDigitChar c = true) :
    jsParseInt ⟨cs⟩ =
      if (takeDigits cs).1.isEmpty = true then none
      else some ((digitsVal (takeDigits cs).1 : ℤ)) := by
  subst hcs
  obtain ⟨hm, hp⟩ := isDigitChar_ne_sign hd
  simp [jsParseInt, String.toList, hm, hp]

/-- `toFixed(6)` followed by `parseFloat` recovers exactly the rational
rounded to six decimal places. -/
theorem jsParseFloat_toFixed6 (q : ℚ) :
    jsParseFloat (toFixed6 q) = some (round6 q) := by
  by_cases hq : q < 0
  · rw [toFixed6, if_pos hq]
    have hfl : (0 : ℤ) ≤ ⌊-q * 1000000 + 1 / 2⌋ := by
      apply Int.le_floor.2
      push_cast
      nlinarith
    have hcast : ((⌊-q * 1000000 + 1 / 2⌋.toNat : Nat) : ℚ) =
        ((⌊-q * 1000000 + 1 / 2⌋ : ℤ) : ℚ) := by
      exact_mod_cast congrArg (fun z : ℤ => (z : ℚ))
        (Int.toNat_of_nonneg hfl)
    rw [jsParseFloat_mk_neg, parseUnsigned_toFixed6Pos]
    rw [round6, if_pos hq]
    simp only [Option.map_some']
    rw [hcast]
    congr 1
    ring
  · rw [toFixed6, if_neg hq]
    have hfl : (0 : ℤ) ≤ ⌊q * 1000000 + 1 / 2⌋ := by
      apply Int.le_floor.2
      push_cast
      nlinarith [le_of_not_lt hq]
    have hcast : ((⌊q * 1000000 + 1 / 2⌋.toNat : Nat) : ℚ) =
        ((⌊q * 1000000 + 1 / 2⌋ : ℤ) : ℚ) := by
      exact_mod_cast congrArg (fun z : ℤ => (z : ℚ))
        (Int.toNat_of_nonneg hfl)
    obtain ⟨c, cs, hcons, hd⟩ := natToChars_head
      (⌊q * 1000000 + 1 / 2⌋.toNat / 1000000)
    have hlist : toFixed6Pos q = c :: (cs ++ '.' ::
        padDigits 6 (⌊q * 1000000 + 1 / 2⌋.toNat % 1000000)) := by
      rw [toFixed6Pos, hcons]
      simp
    rw [jsParseFloat_mk_digit (toFixed6Pos q) c _ hlist hd]
    rw [parseUnsigned_toFixed6Pos]
    rw [round6, if_neg hq]
    rw [hcast]

/-- `toString` of an integer followed by `parseInt` recovers the
integer. -/
theorem jsParseInt_intToString (z : ℤ) :
    jsParseInt (intToString z) = some z := by
  by_cases hz : z < 0
  · rw [intToString, if_pos hz]
    rw [jsParseInt_mk_neg]
    rw [takeDigits_all _ (digits_natToChars _)]
    have hne : (natToChars (-z).toNat).isEmpty = false := by
      rcases hn : natToChars (-z).toNat with _ | ⟨c, cs⟩
      · exact absurd hn (natToChars_ne_nil _)
      · rfl
    simp only [hne, Bool.false_eq_true, if_false]
    rw [digitsVal_natToChars]
    congr 1
    omega
  · rw [intToString, if_neg hz]
    obtain ⟨c, cs, hcons, hd⟩ := natToChars_head z.toNat
    rw [jsParseInt_mk_digit (natToChars z.toNat) c cs hcons hd]
    rw [takeDigits_all _ (digits_natToChars _)]
    have hne : (natToChars z.toNat).isEmpty = false := by
      rw [hcons]; rfl
    simp only [hne, Bool.false_eq_true, if_false]
    rw [digitsVal_natToChars]
    congr 1
    omega

theorem getParam_cons (kv : String × String) (rest : URLParams) (k : String) :
    getParam (kv :: rest) k = if kv.1 = k then some kv.2 else getParam rest k := by
  by_cases h : kv.1 = k <;> simp [getParam, List.find?, h]

theorem setParam_cons (kv : String × String) (rest : URLParams) (k2 v : String) :
    setParam (kv :: rest) k2 v =
      if kv.1 = k2 then setParam rest k2 v else kv :: setParam rest k2 v := by
  by_cases h : kv.1 = k2 <;> simp [setParam, List.filter, h]

theorem getParam_setParam_self (ps : URLParams) (k v : String) :
    getParam (setParam ps k v) k = some v := by
  induction ps with
  | nil => simp [getParam, setParam, List.find?]
  | cons kv rest ih =>
      rw [setParam_cons]
      by_cases h : kv.1 = k
      · rw [if_pos h]; exact ih
      · rw [if_neg h, getParam_cons, if_neg h]; exact ih

theorem getParam_setParam_other (ps : URLParams) (k k2 v : String)
    (h : k ≠ k2) : getParam (setParam ps k2 v) k = getParam ps k := by
  have h5 : ¬ (k2 = k) := fun hh => h hh.symm
  induction ps with
  | nil => simp [getParam, setParam, List.find?, h5]
  | cons kv rest ih =>
      rw [setParam_cons]
      by_cases h2 : kv.1 = k2
      · rw [if_pos h2, ih, getParam_cons]
        have h3 : ¬ (kv.1 = k) := by rw [h2]; exact h5
        rw [if_neg h3]
      · rw [if_neg h2, getParam_cons, getParam_cons, ih]

/-- C8: writing the map state with `updateURL` and reading it back with
`readURLParams` yields the latitude and longitude rounded to six decimal
places and the exact zoom; and `readURLParams` yields `null` whenever any
of the three parameters is absent or fails to parse as a number. -/
theorem C8_url_state_roundtrip :
    (∀ (lat lng : ℚ) (zoom : ℤ) (ps : URLParams),
        readURLParams (updateURL lat lng zoom ps) =
          some ⟨round6 lat, round6 lng, zoom⟩) ∧
    (∀ ps : URLParams,
        ((getParam ps "lat").bind jsParseFloat = none ∨
         (getParam ps "lng").bind jsParseFloat = none ∨
         (getParam ps "zoom").bind jsParseInt = none) →
        readURLParams ps = none) := by
  constructor
  · intro lat lng zoom ps
    have hlat : getParam (updateURL lat lng zoom ps) "lat" =
        some (toFixed6 lat) := by
      rw [updateURL]
      rw [getParam_setParam_other _ _ _ _ (by decide)]
      rw [getParam_setParam_other _ _ _ _ (by decide)]
      exact getParam_setParam_self _ _ _
    have hlng : getParam (updateURL lat lng zoom ps) "lng" =
        some (toFixed6 lng) := by
      rw [updateURL]
      rw [getParam_setParam_other _ _ _ _ (by decide)]
      exact getParam_setParam_self _ _ _
    have hzoom : getParam (updateURL lat lng zoom ps) "zoom" =
        some (intToString zoom) := by
      rw [updateURL]
      exact getParam_setParam_self _ _ _
    rw [readURLParams, hlat, hlng, hzoom]
    simp only [Option.some_bind]
    rw [jsParseFloat_toFixed6, jsParseFloat_toFixed6, jsParseInt_intToString]
  · intro ps h
    rcases hA : (getParam ps "lat").bind jsParseFloat with _ | a
    · simp [readURLParams, hA]
    · rcases hB : (getParam ps "lng").bind jsParseFloat with _ | b
      · simp [readURLParams, hA, hB]
      · rcases hC : (getParam ps "zoom").bind jsParseInt with _ | c
        · simp [readURLParams, hA, hB, hC]
        · exfalso
          rcases h with h | h | h <;> simp [hA, hB, hC] at h

/-- Witness for C8: a concrete round trip and a concrete empty query
string. -/
theorem C8_url_state_roundtrip_witness :
    readURLParams (updateURL (1 / 2) (-(1 / 3)) 15 []) =
      some ⟨round6 (1 / 2), round6 (-(1 / 3)), 15⟩ ∧
    readURLParams ([] : URLParams) = none :=
  ⟨C8_url_state_roundtrip.1 (1 / 2) (-(1 / 3)) 15 [],
   C8_url_state_roundtrip.2 [] (Or.inl rfl)⟩

end MetalDetecting
